import Mathlib

/-!
# Concert protocol library: message codec, serial transport, handshake

A shallow embedding of `src/concert.c` / `src/concert.h`.

Modelling conventions.

* A byte is a `Nat` (the value of an `unsigned char`); a `char` array is a
  `List Nat`.  A `const char *` argument is a `CString`: `none` is the NULL
  pointer, `some m` points at the bytes `m`, which are followed in memory by a
  NUL terminator.  As in C, the string denoted by `m` stops at the first zero
  byte of `m`, if there is one.
* Functions that populate a caller's buffer return the new buffer contents
  together with their integer result.
* Operating-system calls are answered by an `OS` record (a simulated device);
  every function that performs I/O returns the ordered list of the calls it
  made (`Event`s) next to its result.
* Diagnostics printed on `stderr` (`fprintf`, `perror`) are not modelled.
* `BUFSIZ` comes from `<stdio.h>` and is a parameter of the functions that
  use it.
* `int` and `unsigned int` are 32 bits wide; a count that a system call
  answers as a `ssize_t` is reduced to 32 bits where the code returns it as
  an `int`.
-/

namespace Concert

/-! ## Error codes and protocol constants (`concert.h`) -/

def CONCERT_ERROR : Int := -1
def CONCERT_ERROR_INVALID_CASH_REGISTER_ID : Int := -2
def CONCERT_ERROR_INVALID_AMOUNT : Int := -3
def CONCERT_ERROR_INVALID_INDICATOR : Int := -4
def CONCERT_ERROR_INVALID_MODE : Int := -5
def CONCERT_ERROR_INVALID_TYPE : Int := -6
def CONCERT_ERROR_INVALID_CURRENCY : Int := -7
def CONCERT_ERROR_INVALID_PRIVATE : Int := -8
def CONCERT_ERROR_INVALID_DELAY : Int := -9
def CONCERT_ERROR_INVALID_AUTHORIZATION : Int := -10
def CONCERT_ERROR_INVALID_DEVICE : Int := -11

/-- The literal `"1"`. -/
def CONCERT_INDICATOR_INCLUDE : List Nat := [49]
/-- The literal `"0"`. -/
def CONCERT_INDICATOR_DO_NOT_INCLUDE : List Nat := [48]
/-- The literal `"1"`. -/
def CONCERT_MODE_BANK_CARD : List Nat := [49]
/-- The literal `"C"`. -/
def CONCERT_MODE_CHEQUE : List Nat := [67]
/-- The literal `"0"`. -/
def CONCERT_TYPE_DEBIT : List Nat := [48]
/-- The literal `"1"`. -/
def CONCERT_TYPE_CREDIT : List Nat := [49]
/-- The literal `"978"`. -/
def CONCERT_CURRENCY_EUR : List Nat := [57, 55, 56]
/-- The literal `"840"`. -/
def CONCERT_CURRENCY_USD : List Nat := [56, 52, 48]
/-- Ten blanks. -/
def CONCERT_PRIVATE_EMPTY : List Nat := [32, 32, 32, 32, 32, 32, 32, 32, 32, 32]
/-- The literal `"A010"`. -/
def CONCERT_DELAY_LATER : List Nat := [65, 48, 49, 48]
/-- The literal `"A011"`. -/
def CONCERT_DELAY_NOW : List Nat := [65, 48, 49, 49]
/-- The literal `"B010"`. -/
def CONCERT_AUTHORIZATION_AUTO : List Nat := [66, 48, 49, 48]

/-! ## C strings and the libc functions the code calls -/

/-- A `const char *`: NULL, or a pointer to bytes followed by a terminator. -/
abbrev CString := Option (List Nat)

/-- The test `p == NULL`. -/
def is_null (p : CString) : Bool := p.isNone

/-- The memory a non-null pointer points at (only used behind a NULL test). -/
def deref (p : CString) : List Nat := p.getD []

/-- The string stored at the start of `m`: the bytes before the first NUL. -/
def cstr : List Nat → List Nat
  | [] => []
  | c :: rest => if c = 0 then [] else c :: cstr rest

/-- Libc `strlen`: the number of bytes before the first NUL. -/
def strlen : List Nat → Nat
  | [] => 0
  | c :: rest => if c = 0 then 0 else strlen rest + 1

/-- Libc `strcmp`: zero exactly when both strings are equal, otherwise the
sign of the lexicographic comparison. -/
def strcmp (a b : List Nat) : Int :=
  if cstr a = cstr b then 0 else if cstr a < cstr b then -1 else 1

/-- Libc `isdigit` in the C locale. -/
def isdigit (c : Nat) : Bool := decide (48 ≤ c) && decide (c ≤ 57)

/-- The conversion of a `ssize_t` to `int` that `return bytes_written` and
`return bytes_read` perform: the value is reduced to 32 bits, two's
complement. -/
def int_of_ssize_t (x : Int) : Int :=
  (x + 2147483648) % 4294967296 - 2147483648

/-- Overwrite the start of the array `buffer` with `bytes` (writes past the
end of the array are dropped). -/
def store (buffer bytes : List Nat) : List Nat :=
  bytes.take buffer.length ++ buffer.drop bytes.length

/-- Libc `memset ( buffer, value, n )`. -/
def memset (buffer : List Nat) (value n : Nat) : List Nat :=
  store buffer (List.replicate n value)

/-- Libc `snprintf ( buffer, size, fmt, ... )` where `out` is the complete
formatted output: it stores at most `size - 1` bytes of `out` and a NUL, and
returns the length of the complete output. -/
def snprintf (buffer : List Nat) (size : Nat) (out : List Nat) : Int × List Nat :=
  ((out.length : Int),
    if size = 0 then buffer else store buffer (out.take (size - 1) ++ [0]))

/-- The digits of `n` in base ten, most significant first, as ASCII bytes:
the conversion `%u` performs (ten digits suffice for 32 bits). -/
def utoa_loop : Nat → Nat → List Nat → List Nat
  | 0, _, acc => acc
  | fuel + 1, n, acc =>
    if n < 10 then (48 + n) :: acc
    else utoa_loop fuel (n / 10) ((48 + n % 10) :: acc)

/-- The conversion `%u` of an `unsigned int`. -/
def utoa (n : Nat) : List Nat := utoa_loop 10 n []

/-- The conversion `%08u`: `%u` left-padded with `'0'` to at least 8 bytes. -/
def format_08u (n : Nat) : List Nat :=
  List.replicate (8 - (utoa n).length) 48 ++ utoa n

/-! ## `concert_is_number`, `concert_lrc`, `concert_message` -/

/-- Source `concert_is_number`: 1 when every byte before the terminator is a
digit, 0 at the first byte that is not. -/
def concert_is_number : List Nat → Int
  | [] => 1
  | c :: rest =>
    if c = 0 then 1
    else if !isdigit c then 0
    else concert_is_number rest

/-- The loop of `concert_lrc`, with the running value of `lrc`. -/
def concert_lrc_loop : List Nat → Nat → Nat
  | [], lrc => lrc
  | c :: rest, lrc => if c = 0 then lrc else concert_lrc_loop rest (lrc ^^^ c)

/-- Source `concert_lrc`. -/
def concert_lrc (string : List Nat) : Nat := concert_lrc_loop string 0

/-- The output of the format `"%s%s%s%s%s%s%s%s%s%c"` of the first `snprintf`
of `concert_message`, the last argument being `0x03`. -/
def checksum_span (cash_register_id amount indicator mode type currency
    private_ delay authorization : CString) : List Nat :=
  cstr (deref cash_register_id) ++ cstr (deref amount) ++ cstr (deref indicator)
    ++ cstr (deref mode) ++ cstr (deref type) ++ cstr (deref currency)
    ++ cstr (deref private_) ++ cstr (deref delay) ++ cstr (deref authorization)
    ++ [0x03]

/-- Lines 110 to 127 of `concert_message`: what runs once every check has
passed.  The second `snprintf` is given the array it writes as its `%s`
argument, which C leaves undefined; the model follows what the compiled
program does: the checksum argument is computed before the call, and when
the `%s` argument is read the conversion `%c` has already stored 0x02 in
byte 0 of the array (provided the size leaves room for one byte). -/
def concert_message_encode (buffer : List Nat) (buffer_size : Nat)
    (cash_register_id amount indicator mode type currency
    private_ delay authorization : CString) : Int × List Nat :=
  let buffer1 := memset buffer 0 37
  let r1 := snprintf buffer1 buffer_size
    (checksum_span cash_register_id amount indicator mode type currency
      private_ delay authorization)
  if r1.1 < 0 then (-1, r1.2)
  else
    let lrc := concert_lrc r1.2
    let source := if 2 ≤ buffer_size then r1.2.set 0 0x02 else r1.2
    let r2 := snprintf r1.2 buffer_size ([0x02] ++ cstr source ++ [lrc])
    if r2.1 ≠ 0 then (-1, r2.2)
    else (37, r2.2)

/-- Source `concert_message`: the result and the contents of `buffer`
afterwards. -/
def concert_message (buffer : List Nat) (buffer_size : Nat)
    (cash_register_id amount indicator mode type currency
    private_ delay authorization : CString) : Int × List Nat :=
  if is_null cash_register_id || strlen (deref cash_register_id) != 2
      || concert_is_number (deref cash_register_id) == 0 then
    (CONCERT_ERROR_INVALID_CASH_REGISTER_ID, buffer)
  else if is_null amount || strlen (deref amount) != 8
      || concert_is_number (deref amount) == 0 then
    (CONCERT_ERROR_INVALID_AMOUNT, buffer)
  else if is_null indicator || strlen (deref indicator) != 1 then
    (CONCERT_ERROR_INVALID_INDICATOR, buffer)
  else if is_null mode || strlen (deref mode) != 1
      || (strcmp (deref mode) CONCERT_MODE_CHEQUE != 0
          && strcmp (deref mode) CONCERT_MODE_BANK_CARD != 0) then
    (CONCERT_ERROR_INVALID_MODE, buffer)
  else if is_null type || strlen (deref type) != 1
      || (strcmp (deref type) CONCERT_TYPE_DEBIT != 0
          && strcmp (deref type) CONCERT_TYPE_CREDIT != 0) then
    (CONCERT_ERROR_INVALID_TYPE, buffer)
  else if is_null currency || strlen (deref currency) != 3 then
    (CONCERT_ERROR_INVALID_CURRENCY, buffer)
  else if is_null private_ || strlen (deref private_) != 10 then
    (CONCERT_ERROR_INVALID_PRIVATE, buffer)
  else if is_null delay || strlen (deref delay) != 4
      || (strcmp (deref delay) CONCERT_DELAY_NOW != 0
          && strcmp (deref delay) CONCERT_DELAY_LATER != 0) then
    (CONCERT_ERROR_INVALID_DELAY, buffer)
  else if is_null authorization || strlen (deref authorization) != 4
      || strcmp (deref mode) CONCERT_AUTHORIZATION_AUTO != 0 then
    (CONCERT_ERROR_INVALID_AUTHORIZATION, buffer)
  else
    concert_message_encode buffer buffer_size cash_register_id amount indicator
      mode type currency private_ delay authorization

/-! ## Serial transport -/

/-- A simulated operating system and device: the answer to each system call.
`sys_open`, `sys_close` and `sys_write` answer as the C calls do (negative on
failure); `sys_tcgetattr` and `sys_tcsetattr` answer 0 on success;
`sys_read fd count` is `none` on failure and otherwise the bytes delivered. -/
structure OS where
  sys_open : List Nat → Int
  sys_tcgetattr : Int → Int
  sys_tcsetattr : Int → Int
  sys_close : Int → Int
  sys_write : Int → List Nat → Int
  sys_read : Int → Nat → Option (List Nat)

/-- One system call, with its arguments. -/
inductive Event where
  | ev_open (path : List Nat)
  | ev_tcgetattr (fd : Int)
  | ev_tcsetattr (fd : Int)
  | ev_close (fd : Int)
  | ev_write (fd : Int) (payload : List Nat)
  | ev_read (fd : Int) (count : Nat)
  deriving DecidableEq

open Event

/-- Source `concert_device_open`.  The changes made to the `termios` record
between `tcgetattr` and `tcsetattr` do not influence the control flow. -/
def concert_device_open (os : OS) (device : List Nat) : Int × List Event :=
  let serial_port := os.sys_open device
  if serial_port < 0 then
    (CONCERT_ERROR, [ev_open device])
  else if os.sys_tcgetattr serial_port ≠ 0 then
    (CONCERT_ERROR, [ev_open device, ev_tcgetattr serial_port, ev_close serial_port])
  else if os.sys_tcsetattr serial_port ≠ 0 then
    (CONCERT_ERROR, [ev_open device, ev_tcgetattr serial_port,
      ev_tcsetattr serial_port, ev_close serial_port])
  else
    (1, [ev_open device, ev_tcgetattr serial_port, ev_tcsetattr serial_port])

/-- Source `concert_device_close`. -/
def concert_device_close (os : OS) (device : Int) : Int × List Event :=
  if device < 0 then
    (CONCERT_ERROR_INVALID_DEVICE, [])
  else if os.sys_close device < 0 then
    (CONCERT_ERROR, [ev_close device])
  else
    (1, [ev_close device])

/-- Source `concert_device_write`: one `write` of the first `buffer_size`
bytes of `buffer`.  The count `write` answers is a `ssize_t`; it is returned
as an `int`. -/
def concert_device_write (os : OS) (device : Int) (buffer : List Nat)
    (buffer_size : Nat) : Int × List Event :=
  let bytes_written := os.sys_write device (buffer.take buffer_size)
  if bytes_written < 0 then
    (CONCERT_ERROR, [ev_write device (buffer.take buffer_size)])
  else
    (int_of_ssize_t bytes_written, [ev_write device (buffer.take buffer_size)])

/-- Source `concert_device_read`: the result, the buffer afterwards, and the
calls made.  The bytes delivered are at most `buffer_size`; their count is a
`ssize_t` and is returned as an `int`. -/
def concert_device_read (os : OS) (device : Int) (buffer : CString)
    (buffer_size : Nat) : Int × List Nat × List Event :=
  if is_null buffer then
    (CONCERT_ERROR, deref buffer, [])
  else
    match os.sys_read device buffer_size with
    | none => (CONCERT_ERROR, deref buffer, [ev_read device buffer_size])
    | some data =>
      (int_of_ssize_t ((data.take buffer_size).length : Int),
        store (deref buffer) (data.take buffer_size),
        [ev_read device buffer_size])

/-- Source `concert_device_ping`. -/
def concert_device_ping (os : OS) (BUFSIZ : Nat) (device : Int) : Int × List Event :=
  let buffer := (List.replicate BUFSIZ 0).set 0 0x05
  let w := concert_device_write os device buffer BUFSIZ
  if w.1 < 0 then
    (w.1, w.2)
  else
    let r := concert_device_read os device (some buffer) BUFSIZ
    if r.1 < 0 then
      (r.1, w.2 ++ r.2.2)
    else if r.2.1.getD 0 0 != 0x06 then
      (CONCERT_ERROR, w.2 ++ r.2.2)
    else
      (1, w.2 ++ r.2.2)

/-! ## Request orchestrator -/

/-- The local array `amount_str` of `concert_simple_request` after
`snprintf ( amount_str, sizeof ( amount_str ), "%08u", amount )`; `amount` is
an `unsigned int`. -/
def amount_str (amount : Nat) : List Nat :=
  (snprintf (List.replicate 9 0) 9 (format_08u (amount % 4294967296))).2

/-- Lines 191 to 217 of `concert_simple_request`: what follows the call of
`concert_message`, given its result `message_size` and the buffer it left. -/
def concert_simple_request_send (os : OS) (device : List Nat)
    (message_size : Int) (buffer : List Nat) : Int × List Event :=
  if message_size < 0 then
    (message_size, [])
  else
    let o := concert_device_open os device
    if o.1 < 0 then
      (CONCERT_ERROR, o.2)
    else
      let w := concert_device_write os o.1 buffer message_size.toNat
      if w.1 < 0 then
        (w.1, o.2 ++ w.2)
      else
        let c := concert_device_close os o.1
        if c.1 < 0 then
          (c.1, o.2 ++ w.2 ++ c.2)
        else
          (1, o.2 ++ w.2 ++ c.2)

/-- Source `concert_simple_request`.  `stack` is the indeterminate initial
contents of the local array `buffer` of `BUFSIZ` bytes. -/
def concert_simple_request (os : OS) (BUFSIZ : Nat) (stack : List Nat)
    (device : CString) (amount : Nat) (currency : CString) : Int × List Event :=
  if is_null device then
    (CONCERT_ERROR_INVALID_DEVICE, [])
  else
    let m := concert_message stack BUFSIZ (some [48, 49]) (some (amount_str amount))
      (some CONCERT_INDICATOR_DO_NOT_INCLUDE) (some CONCERT_MODE_BANK_CARD)
      (some CONCERT_TYPE_CREDIT) currency (some CONCERT_PRIVATE_EMPTY)
      (some CONCERT_DELAY_NOW) (some CONCERT_AUTHORIZATION_AUTO)
    concert_simple_request_send os (deref device) m.1 m.2

/-! ## The field table of the specification -/

/-- The number a string of ASCII digits denotes in base ten. -/
def decimal_value (s : List Nat) : Nat := s.foldl (fun v c => 10 * v + (c - 48)) 0

/-- Every byte of `s` is one of `'0'` to `'9'`. -/
def all_digits (s : List Nat) : Bool := s.all (fun c => decide (48 ≤ c) && decide (c ≤ 57))

/-- A field of the table: present, of the required length, and meeting the
constraint `ok` (the string of an argument is what precedes its NUL). -/
def field_valid (p : CString) (len : Nat) (ok : List Nat → Bool) : Bool :=
  match p with
  | none => false
  | some m => decide ((cstr m).length = len) && ok (cstr m)

/-- Register id: 2 digits. -/
def valid_cash_register_id (p : CString) : Bool := field_valid p 2 all_digits
/-- Amount: 8 digits. -/
def valid_amount (p : CString) : Bool := field_valid p 8 all_digits
/-- Indicator: any 1 character. -/
def valid_indicator (p : CString) : Bool := field_valid p 1 (fun _ => true)
/-- Mode: `"1"` or `"C"`. -/
def valid_mode (p : CString) : Bool :=
  field_valid p 1 (fun s => decide (s = [49]) || decide (s = [67]))
/-- Type: `"0"` or `"1"`. -/
def valid_type (p : CString) : Bool :=
  field_valid p 1 (fun s => decide (s = [48]) || decide (s = [49]))
/-- Currency: any 3 characters. -/
def valid_currency (p : CString) : Bool := field_valid p 3 (fun _ => true)
/-- Private data: any 10 characters. -/
def valid_private (p : CString) : Bool := field_valid p 10 (fun _ => true)
/-- Delay: `"A011"` or `"A010"`. -/
def valid_delay (p : CString) : Bool :=
  field_valid p 4 (fun s => decide (s = [65, 48, 49, 49]) || decide (s = [65, 48, 49, 48]))
/-- Authorization: any 4 characters. -/
def valid_authorization (p : CString) : Bool := field_valid p 4 (fun _ => true)

/-- The validity of the nine fields, in declaration order. -/
def field_validity (cash_register_id amount indicator mode type currency
    private_ delay authorization : CString) : List Bool :=
  [valid_cash_register_id cash_register_id, valid_amount amount,
   valid_indicator indicator, valid_mode mode, valid_type type,
   valid_currency currency, valid_private private_, valid_delay delay,
   valid_authorization authorization]

/-- The error code of each field, in declaration order (`concert.h`). -/
def field_error_codes : List Int :=
  [CONCERT_ERROR_INVALID_CASH_REGISTER_ID, CONCERT_ERROR_INVALID_AMOUNT,
   CONCERT_ERROR_INVALID_INDICATOR, CONCERT_ERROR_INVALID_MODE,
   CONCERT_ERROR_INVALID_TYPE, CONCERT_ERROR_INVALID_CURRENCY,
   CONCERT_ERROR_INVALID_PRIVATE, CONCERT_ERROR_INVALID_DELAY,
   CONCERT_ERROR_INVALID_AUTHORIZATION]

/-! ## Simulated devices used in the evaluations below -/

/-- A device on which every call succeeds: `open` yields descriptor 3, every
`write` accepts the whole payload, every `read` delivers the byte `0x06`. -/
def device_ok : OS where
  sys_open := fun _ => 3
  sys_tcgetattr := fun _ => 0
  sys_tcsetattr := fun _ => 0
  sys_close := fun _ => 0
  sys_write := fun _ payload => (payload.length : Int)
  sys_read := fun _ _ => some [6]

/-- As `device_ok`, but every `write` fails. -/
def device_write_fails : OS where
  sys_open := fun _ => 3
  sys_tcgetattr := fun _ => 0
  sys_tcsetattr := fun _ => 0
  sys_close := fun _ => 0
  sys_write := fun _ _ => -1
  sys_read := fun _ _ => some [6]

/-- As `device_ok`, but every `write` answers 2147483648, more than any count
it can be given and one more than an `int` holds. -/
def device_write_oversized : OS where
  sys_open := fun _ => 3
  sys_tcgetattr := fun _ => 0
  sys_tcsetattr := fun _ => 0
  sys_close := fun _ => 0
  sys_write := fun _ _ => 2147483648
  sys_read := fun _ _ => some [6]

/-- The path `"/dev/tty.usbmodem1"`. -/
def sample_path : List Nat :=
  [47, 100, 101, 118, 47, 116, 116, 121, 46, 117, 115, 98, 109, 111, 100, 101, 109, 49]

/-- The 37 bytes the specification gives for register `"01"`, amount
`"00012345"`, indicator `"0"`, mode `"1"`, type `"1"`, currency `"978"`, ten
blanks, delay `"A011"` and authorization `"B010"`. -/
def sample_frame : List Nat :=
  [2, 48, 49, 48, 48, 48, 49, 50, 51, 52, 53, 48, 49, 49, 57, 55, 56,
   32, 32, 32, 32, 32, 32, 32, 32, 32, 32, 65, 48, 49, 49, 66, 48, 49, 48, 3, 7]

/-! ## Lemmas on C strings and decimal conversion -/

theorem cstr_append_nul (s t : List Nat) (h : 0 ∉ s) : cstr (s ++ 0 :: t) = s := by
  induction s with
  | nil => simp [cstr]
  | cons c rest ih =>
    have hc : c ≠ 0 := fun e => h (by simp [e])
    have hr : 0 ∉ rest := fun e => h (by simp [e])
    simp [cstr, hc, ih hr]

theorem strlen_eq_length_cstr (s : List Nat) : strlen s = (cstr s).length := by
  induction s with
  | nil => rfl
  | cons c rest ih =>
    by_cases hc : c = 0
    · simp [strlen, cstr, hc]
    · simp [strlen, cstr, hc, ih]

theorem strcmp_eq_zero_iff (a b : List Nat) : strcmp a b = 0 ↔ cstr a = cstr b := by
  unfold strcmp
  by_cases h : cstr a = cstr b
  · simp [h]
  · simp only [h, if_false, iff_false]
    split <;> decide

theorem concert_is_number_eq_one_iff (s : List Nat) :
    concert_is_number s = 1 ↔ ∀ c ∈ cstr s, 48 ≤ c ∧ c ≤ 57 := by
  induction s with
  | nil => simp [concert_is_number, cstr]
  | cons c rest ih =>
    by_cases hc : c = 0
    · simp [concert_is_number, cstr, hc]
    · by_cases hd : isdigit c = true
      · have hd2 : 48 ≤ c ∧ c ≤ 57 := by simpa [isdigit] using hd
        simp [concert_is_number, cstr, hc, hd, ih, hd2]
      · have hd2 : ¬ (48 ≤ c ∧ c ≤ 57) := by simpa [isdigit] using hd
        simp only [concert_is_number, cstr, hc, if_false, hd, Bool.not_false, if_true,
          List.mem_cons, forall_eq_or_imp]
        constructor
        · intro h; exact absurd h (by decide)
        · intro h; exact absurd h.1 hd2

theorem concert_is_number_zero_or_one (s : List Nat) :
    concert_is_number s = 0 ∨ concert_is_number s = 1 := by
  induction s with
  | nil => simp [concert_is_number]
  | cons c rest ih =>
    simp only [concert_is_number]
    split
    · simp
    · split
      · simp
      · exact ih

theorem utoa_loop_acc (fuel n : Nat) (acc : List Nat) :
    utoa_loop fuel n acc = utoa_loop fuel n [] ++ acc := by
  induction fuel generalizing n acc with
  | zero => simp [utoa_loop]
  | succ k ih =>
    simp only [utoa_loop]
    split
    · simp
    · rw [ih (n / 10) ((48 + n % 10) :: acc), ih (n / 10) [48 + n % 10]]
      simp

theorem utoa_loop_digits (fuel n : Nat) :
    ∀ c ∈ utoa_loop fuel n [], 48 ≤ c ∧ c ≤ 57 := by
  induction fuel generalizing n with
  | zero => simp [utoa_loop]
  | succ k ih =>
    intro c hc
    simp only [utoa_loop] at hc
    split at hc
    · simp at hc; omega
    · rw [utoa_loop_acc] at hc
      simp only [List.mem_append, List.mem_singleton] at hc
      rcases hc with hc | hc
      · exact ih _ c hc
      · have := Nat.mod_lt n (show 10 > 0 by decide); omega

theorem utoa_loop_length (fuel k n : Nat) (hk : 0 < k) (hf : k ≤ fuel) (hn : n < 10 ^ k) :
    (utoa_loop fuel n []).length ≤ k := by
  induction fuel generalizing n k with
  | zero => omega
  | succ f ih =>
    simp only [utoa_loop]
    split
    · simp; omega
    · rename_i h10
      rw [utoa_loop_acc]
      simp only [List.length_append, List.length_singleton]
      have hk2 : 2 ≤ k := by
        by_contra hlt
        have : k = 1 := by omega
        subst this
        simp at hn; omega
      have hdiv : n / 10 < 10 ^ (k - 1) := by
        have : 10 ^ k = 10 ^ (k - 1) * 10 := by
          rw [← pow_succ]; congr 1; omega
        rw [this] at hn
        exact Nat.div_lt_of_lt_mul (by rw [Nat.mul_comm]; exact hn)
      have := ih (k - 1) (n / 10) (by omega) (by omega) hdiv
      omega

theorem decimal_value_append_digit (s : List Nat) (c : Nat) :
    decimal_value (s ++ [c]) = 10 * decimal_value s + (c - 48) := by
  simp [decimal_value, List.foldl_append]

theorem decimal_value_utoa_loop (fuel n : Nat) (hn : n < 10 ^ fuel) :
    decimal_value (utoa_loop fuel n []) = n := by
  induction fuel generalizing n with
  | zero => simp at hn; subst hn; simp [utoa_loop, decimal_value]
  | succ f ih =>
    simp only [utoa_loop]
    split
    · simp [decimal_value]
    · rw [utoa_loop_acc, decimal_value_append_digit]
      have hdiv : n / 10 < 10 ^ f := by
        rw [pow_succ] at hn
        exact Nat.div_lt_of_lt_mul (by rw [Nat.mul_comm]; exact hn)
      rw [ih (n / 10) hdiv]
      omega

theorem decimal_value_pad (k : Nat) (s : List Nat) :
    decimal_value (List.replicate k 48 ++ s) = decimal_value s := by
  induction k with
  | zero => simp
  | succ j ih =>
    simp only [decimal_value, List.replicate_succ, List.cons_append, List.foldl_cons] at ih ⊢
    simpa using ih

theorem format_08u_digits (n : Nat) : ∀ c ∈ format_08u n, 48 ≤ c ∧ c ≤ 57 := by
  intro c hc
  simp only [format_08u, List.mem_append, List.mem_replicate] at hc
  rcases hc with hc | hc
  · omega
  · exact utoa_loop_digits 10 n c hc

theorem format_08u_length (n : Nat) : 8 ≤ (format_08u n).length := by
  simp only [format_08u, List.length_append, List.length_replicate]; omega

theorem amount_str_eq (amount : Nat) :
    amount_str amount = (format_08u (amount % 4294967296)).take 8 ++ [0] := by
  have h := format_08u_length (amount % 4294967296)
  simp only [amount_str, snprintf, store]
  simp [List.length_take, Nat.min_eq_left h]

theorem cstr_amount_str (amount : Nat) :
    cstr (amount_str amount) = (format_08u (amount % 4294967296)).take 8 := by
  rw [amount_str_eq]
  have : 0 ∉ (format_08u (amount % 4294967296)).take 8 := by
    intro h0
    have := format_08u_digits _ 0 (List.mem_of_mem_take h0)
    omega
  simpa using cstr_append_nul _ [] this

/-! ## The nine checks of `concert_message` against the field table -/

theorem field_valid_check (p : CString) (len : Nat) (ok : List Nat → Bool) :
    field_valid p len ok
      = !(is_null p || strlen (deref p) != len || !ok (cstr (deref p))) := by
  cases p with
  | none => simp [field_valid, is_null]
  | some m =>
    simp only [field_valid, is_null, deref, Option.isNone_some, Option.getD_some,
      strlen_eq_length_cstr, Bool.false_or]
    by_cases h : (cstr m).length = len <;> simp [h]

theorem all_digits_eq (s : List Nat) :
    all_digits (cstr s) = !(concert_is_number s == 0) := by
  have h := concert_is_number_eq_one_iff s
  rcases concert_is_number_zero_or_one s with h0 | h1
  · have : ¬ ∀ c ∈ cstr s, 48 ≤ c ∧ c ≤ 57 := fun hh => by
      have := h.2 hh; omega
    have h2 : all_digits (cstr s) = false := by
      simp only [all_digits, Bool.eq_false_iff, ne_eq, List.all_eq_true, Bool.and_eq_true,
        decide_eq_true_eq]
      exact this
    simp [h0, h2]
  · have h2 : all_digits (cstr s) = true := by
      simp only [all_digits, List.all_eq_true, Bool.and_eq_true, decide_eq_true_eq]
      exact h.1 h1
    simp [h1, h2]

theorem check_cash_register_id (p : CString) :
    (is_null p || strlen (deref p) != 2 || concert_is_number (deref p) == 0)
      = !valid_cash_register_id p := by
  simp [valid_cash_register_id, field_valid_check, all_digits_eq]

theorem check_amount (p : CString) :
    (is_null p || strlen (deref p) != 8 || concert_is_number (deref p) == 0)
      = !valid_amount p := by
  simp [valid_amount, field_valid_check, all_digits_eq]

theorem check_any (p : CString) (len : Nat) :
    (is_null p || strlen (deref p) != len) = !field_valid p len (fun _ => true) := by
  simp [field_valid_check]

theorem check_choice (p : CString) (len : Nat) (a b : List Nat)
    (ha : cstr a = a) (hb : cstr b = b) :
    (is_null p || strlen (deref p) != len
        || (strcmp (deref p) a != 0 && strcmp (deref p) b != 0))
      = !field_valid p len (fun s => decide (s = a) || decide (s = b)) := by
  rw [field_valid_check]
  have e1 : (strcmp (deref p) a != 0) = !decide (cstr (deref p) = a) := by
    by_cases h : cstr (deref p) = a
    · have := (strcmp_eq_zero_iff (deref p) a).2 (by rw [ha]; exact h)
      simp [h, this]
    · have : strcmp (deref p) a ≠ 0 := fun e =>
        h (by have := (strcmp_eq_zero_iff (deref p) a).1 e; rw [ha] at this; exact this)
      simp [h, this]
  have e2 : (strcmp (deref p) b != 0) = !decide (cstr (deref p) = b) := by
    by_cases h : cstr (deref p) = b
    · have := (strcmp_eq_zero_iff (deref p) b).2 (by rw [hb]; exact h)
      simp [h, this]
    · have : strcmp (deref p) b ≠ 0 := fun e =>
        h (by have := (strcmp_eq_zero_iff (deref p) b).1 e; rw [hb] at this; exact this)
      simp [h, this]
  rw [e1, e2]
  cases is_null p <;> cases (strlen (deref p) != len) <;>
    cases decide (cstr (deref p) = a) <;> cases decide (cstr (deref p) = b) <;> rfl

theorem check_indicator (p : CString) :
    (is_null p || strlen (deref p) != 1) = !valid_indicator p := check_any p 1

theorem check_currency (p : CString) :
    (is_null p || strlen (deref p) != 3) = !valid_currency p := check_any p 3

theorem check_private (p : CString) :
    (is_null p || strlen (deref p) != 10) = !valid_private p := check_any p 10

theorem check_mode (p : CString) :
    (is_null p || strlen (deref p) != 1
        || (strcmp (deref p) CONCERT_MODE_CHEQUE != 0
          && strcmp (deref p) CONCERT_MODE_BANK_CARD != 0)) = !valid_mode p := by
  rw [check_choice p 1 _ _ (by decide) (by decide)]
  cases p with
  | none => rfl
  | some m =>
    simp only [valid_mode, field_valid, CONCERT_MODE_CHEQUE, CONCERT_MODE_BANK_CARD]
    rw [Bool.or_comm (decide (cstr m = [67]))]

theorem check_type (p : CString) :
    (is_null p || strlen (deref p) != 1
        || (strcmp (deref p) CONCERT_TYPE_DEBIT != 0
          && strcmp (deref p) CONCERT_TYPE_CREDIT != 0)) = !valid_type p := by
  rw [check_choice p 1 _ _ (by decide) (by decide)]
  rfl

theorem check_delay (p : CString) :
    (is_null p || strlen (deref p) != 4
        || (strcmp (deref p) CONCERT_DELAY_NOW != 0
          && strcmp (deref p) CONCERT_DELAY_LATER != 0)) = !valid_delay p := by
  rw [check_choice p 4 _ _ (by decide) (by decide)]
  rfl

theorem strcmp_mode_authorization (mode : CString) (h : valid_mode mode = true) :
    (strcmp (deref mode) CONCERT_AUTHORIZATION_AUTO != 0) = true := by
  cases mode with
  | none => simp [valid_mode, field_valid] at h
  | some m =>
    simp only [valid_mode, field_valid, Bool.and_eq_true, decide_eq_true_eq,
      Bool.or_eq_true] at h
    have hne : strcmp m CONCERT_AUTHORIZATION_AUTO ≠ 0 := by
      intro e
      have e2 := (strcmp_eq_zero_iff m CONCERT_AUTHORIZATION_AUTO).1 e
      have e3 : cstr CONCERT_AUTHORIZATION_AUTO = [66, 48, 49, 48] := by decide
      rw [e3] at e2
      rw [e2] at h
      simp at h
    simp [deref, hne]

/-- Source `concert_message` as a cascade over the field table: the code
after the nine checks is never reached. -/
theorem concert_message_cascade (buffer : List Nat) (buffer_size : Nat)
    (cash_register_id amount indicator mode type currency
    private_ delay authorization : CString) :
    concert_message buffer buffer_size cash_register_id amount indicator mode type
        currency private_ delay authorization
      = if !valid_cash_register_id cash_register_id then
          (CONCERT_ERROR_INVALID_CASH_REGISTER_ID, buffer)
        else if !valid_amount amount then (CONCERT_ERROR_INVALID_AMOUNT, buffer)
        else if !valid_indicator indicator then (CONCERT_ERROR_INVALID_INDICATOR, buffer)
        else if !valid_mode mode then (CONCERT_ERROR_INVALID_MODE, buffer)
        else if !valid_type type then (CONCERT_ERROR_INVALID_TYPE, buffer)
        else if !valid_currency currency then (CONCERT_ERROR_INVALID_CURRENCY, buffer)
        else if !valid_private private_ then (CONCERT_ERROR_INVALID_PRIVATE, buffer)
        else if !valid_delay delay then (CONCERT_ERROR_INVALID_DELAY, buffer)
        else (CONCERT_ERROR_INVALID_AUTHORIZATION, buffer) := by
  unfold concert_message
  rw [check_cash_register_id, check_amount, check_indicator, check_mode, check_type,
    check_currency, check_private, check_delay]
  by_cases h4 : valid_mode mode = true
  · rw [strcmp_mode_authorization mode h4]
    simp
  · have h4f : valid_mode mode = false := by simpa using h4
    simp [h4f]

/-! ## The amount field and the frame layout -/

theorem valid_amount_amount_str (amount : Nat) : valid_amount (some (amount_str amount)) = true := by
  have hlen := format_08u_length (amount % 4294967296)
  simp only [valid_amount, field_valid, cstr_amount_str, Bool.and_eq_true, decide_eq_true_eq,
    all_digits, List.all_eq_true]
  refine ⟨by simp [List.length_take, Nat.min_eq_left hlen], ?_⟩
  intro c hc
  exact format_08u_digits _ c (List.mem_of_mem_take hc)

/-- C1: evaluation of `concert_message` on the request of the specification's
scenario, with a 64-byte buffer: the result is
`CONCERT_ERROR_INVALID_AUTHORIZATION`, not 37, and the buffer is unchanged, so
it does not hold the 37-byte frame. -/
theorem concert_message_sample_request :
    concert_message (List.replicate 64 0) 64 (some [48, 49])
        (some [48, 48, 48, 49, 50, 51, 52, 53]) (some [48]) (some [49]) (some [49])
        (some [57, 55, 56]) (some CONCERT_PRIVATE_EMPTY) (some CONCERT_DELAY_NOW)
        (some CONCERT_AUTHORIZATION_AUTO)
      = (CONCERT_ERROR_INVALID_AUTHORIZATION, List.replicate 64 0)
    ∧ CONCERT_ERROR_INVALID_AUTHORIZATION ≠ 37
    ∧ (List.replicate 64 0).take 37 ≠ sample_frame
    ∧ false ∉ field_validity (some [48, 49]) (some [48, 48, 48, 49, 50, 51, 52, 53])
        (some [48]) (some [49]) (some [49]) (some [57, 55, 56])
        (some CONCERT_PRIVATE_EMPTY) (some CONCERT_DELAY_NOW)
        (some CONCERT_AUTHORIZATION_AUTO) := by
  decide

theorem cascade_first_invalid (buffer : List Nat) (b1 b2 b3 b4 b5 b6 b7 b8 b9 : Bool)
    (h : false ∈ [b1, b2, b3, b4, b5, b6, b7, b8, b9]) :
    (if !b1 then (CONCERT_ERROR_INVALID_CASH_REGISTER_ID, buffer)
        else if !b2 then (CONCERT_ERROR_INVALID_AMOUNT, buffer)
        else if !b3 then (CONCERT_ERROR_INVALID_INDICATOR, buffer)
        else if !b4 then (CONCERT_ERROR_INVALID_MODE, buffer)
        else if !b5 then (CONCERT_ERROR_INVALID_TYPE, buffer)
        else if !b6 then (CONCERT_ERROR_INVALID_CURRENCY, buffer)
        else if !b7 then (CONCERT_ERROR_INVALID_PRIVATE, buffer)
        else if !b8 then (CONCERT_ERROR_INVALID_DELAY, buffer)
        else (CONCERT_ERROR_INVALID_AUTHORIZATION, buffer))
      = (field_error_codes.getD ([b1, b2, b3, b4, b5, b6, b7, b8, b9].indexOf false) 0,
          buffer) := by
  cases b1
  · rfl
  cases b2
  · rfl
  cases b3
  · rfl
  cases b4
  · rfl
  cases b5
  · rfl
  cases b6
  · rfl
  cases b7
  · rfl
  cases b8
  · rfl
  cases b9
  · rfl
  · simp at h

/-- C2: when at least one of the nine fields is invalid for the field table,
`concert_message` returns the error code of the first invalid field in
declaration order and leaves the buffer as it was. -/
theorem concert_message_first_invalid (buffer : List Nat) (buffer_size : Nat)
    (cash_register_id amount indicator mode type currency
    private_ delay authorization : CString)
    (h : false ∈ field_validity cash_register_id amount indicator mode type currency
      private_ delay authorization) :
    concert_message buffer buffer_size cash_register_id amount indicator mode type
        currency private_ delay authorization
      = (field_error_codes.getD
          ((field_validity cash_register_id amount indicator mode type currency
            private_ delay authorization).indexOf false) 0, buffer) := by
  rw [concert_message_cascade]
  exact cascade_first_invalid buffer _ _ _ _ _ _ _ _ _ h

theorem concert_message_first_invalid_witness :
    false ∈ field_validity (some [48, 49]) (some [48, 48, 48, 49, 50, 51, 52, 53])
        (some [48]) (some [88]) (some [49]) (some [57, 55]) (some CONCERT_PRIVATE_EMPTY)
        (some CONCERT_DELAY_NOW) (some CONCERT_AUTHORIZATION_AUTO)
    ∧ concert_message [9, 9, 9] 3 (some [48, 49]) (some [48, 48, 48, 49, 50, 51, 52, 53])
        (some [48]) (some [88]) (some [49]) (some [57, 55]) (some CONCERT_PRIVATE_EMPTY)
        (some CONCERT_DELAY_NOW) (some CONCERT_AUTHORIZATION_AUTO)
      = (CONCERT_ERROR_INVALID_MODE, [9, 9, 9]) :=
  ⟨by decide, concert_message_first_invalid [9, 9, 9] 3 (some [48, 49])
    (some [48, 48, 48, 49, 50, 51, 52, 53]) (some [48]) (some [88]) (some [49])
    (some [57, 55]) (some CONCERT_PRIVATE_EMPTY) (some CONCERT_DELAY_NOW)
    (some CONCERT_AUTHORIZATION_AUTO) (by decide)⟩

/-- Lines 110 to 127 on the request of the specification's scenario and a
40-byte buffer: the result is -1, because the count the second `snprintf`
returns is taken for a failure, and the buffer starts 0x02, 0x02, `'1'`: byte
36 is the checksum 7 of the span, but byte 1 is no longer `'0'`. -/
theorem concert_message_encode_sample :
    (concert_message_encode (List.replicate 40 9) 40 (some [48, 49])
        (some [48, 48, 48, 49, 50, 51, 52, 53]) (some [48]) (some [49]) (some [49])
        (some [57, 55, 56]) (some CONCERT_PRIVATE_EMPTY) (some CONCERT_DELAY_NOW)
        (some CONCERT_AUTHORIZATION_AUTO))
      = (-1, [2, 2, 49, 48, 48, 48, 49, 50, 51, 52, 53, 48, 49, 49, 57, 55, 56,
          32, 32, 32, 32, 32, 32, 32, 32, 32, 32, 65, 48, 49, 49, 66, 48, 49, 48, 3, 7,
          0, 9, 9]) := by
  decide

/-- C10: `concert_message` returns a negative code and never 37 on any input;
when the first eight fields are valid the result is
`CONCERT_ERROR_INVALID_AUTHORIZATION` and the buffer is untouched, whatever the
authorization argument is; and `concert_simple_request` on a non-null device
returns -7 or -10 without any system call. -/
theorem concert_message_never_succeeds (buffer : List Nat) (buffer_size : Nat)
    (cash_register_id amount indicator mode type currency
    private_ delay authorization : CString)
    (os : OS) (BUFSIZ : Nat) (stack device : List Nat) (request_amount : Nat)
    (request_currency : CString) :
    (concert_message buffer buffer_size cash_register_id amount indicator mode type
        currency private_ delay authorization).1 < 0
    ∧ (concert_message buffer buffer_size cash_register_id amount indicator mode type
        currency private_ delay authorization).1 ≠ 37
    ∧ (valid_cash_register_id cash_register_id = true → valid_amount amount = true →
        valid_indicator indicator = true → valid_mode mode = true →
        valid_type type = true → valid_currency currency = true →
        valid_private private_ = true → valid_delay delay = true →
        concert_message buffer buffer_size cash_register_id amount indicator mode type
          currency private_ delay authorization
          = (CONCERT_ERROR_INVALID_AUTHORIZATION, buffer))
    ∧ ((concert_simple_request os BUFSIZ stack (some device) request_amount
          request_currency).1 = CONCERT_ERROR_INVALID_CURRENCY
        ∨ (concert_simple_request os BUFSIZ stack (some device) request_amount
          request_currency).1 = CONCERT_ERROR_INVALID_AUTHORIZATION)
    ∧ (concert_simple_request os BUFSIZ stack (some device) request_amount
          request_currency).2 = [] := by
  have hneg : (concert_message buffer buffer_size cash_register_id amount indicator mode type
        currency private_ delay authorization).1 < 0 := by
    rw [concert_message_cascade]
    split_ifs <;> simp only [] <;> decide
  refine ⟨hneg, by omega, ?_, ?_⟩
  · intro h1 h2 h3 h4 h5 h6 h7 h8
    rw [concert_message_cascade]
    simp [h1, h2, h3, h4, h5, h6, h7, h8]
  · have hm : concert_message stack BUFSIZ (some [48, 49]) (some (amount_str request_amount))
        (some CONCERT_INDICATOR_DO_NOT_INCLUDE) (some CONCERT_MODE_BANK_CARD)
        (some CONCERT_TYPE_CREDIT) request_currency (some CONCERT_PRIVATE_EMPTY)
        (some CONCERT_DELAY_NOW) (some CONCERT_AUTHORIZATION_AUTO)
        = if !valid_currency request_currency then (CONCERT_ERROR_INVALID_CURRENCY, stack)
          else (CONCERT_ERROR_INVALID_AUTHORIZATION, stack) := by
      rw [concert_message_cascade]
      have a1 : valid_cash_register_id (some [48, 49]) = true := by decide
      have a3 : valid_indicator (some CONCERT_INDICATOR_DO_NOT_INCLUDE) = true := by decide
      have a4 : valid_mode (some CONCERT_MODE_BANK_CARD) = true := by decide
      have a5 : valid_type (some CONCERT_TYPE_CREDIT) = true := by decide
      have a7 : valid_private (some CONCERT_PRIVATE_EMPTY) = true := by decide
      have a8 : valid_delay (some CONCERT_DELAY_NOW) = true := by decide
      simp [a1, valid_amount_amount_str, a3, a4, a5, a7, a8]
    simp only [concert_simple_request, is_null, Option.isNone_some, hm]
    by_cases hc : valid_currency request_currency = true
    · simp [hc, concert_simple_request_send, CONCERT_ERROR_INVALID_AUTHORIZATION]
    · have hc2 : valid_currency request_currency = false := by simpa using hc
      simp [hc2, concert_simple_request_send, CONCERT_ERROR_INVALID_CURRENCY]

theorem concert_message_never_succeeds_witness :
    valid_cash_register_id (some [48, 49]) = true
    ∧ valid_amount (some [48, 48, 48, 49, 50, 51, 52, 53]) = true
    ∧ valid_indicator (some [48]) = true ∧ valid_mode (some [49]) = true
    ∧ valid_type (some [49]) = true ∧ valid_currency (some [57, 55, 56]) = true
    ∧ valid_private (some CONCERT_PRIVATE_EMPTY) = true
    ∧ valid_delay (some CONCERT_DELAY_NOW) = true
    ∧ concert_message [1, 2, 3] 3 (some [48, 49]) (some [48, 48, 48, 49, 50, 51, 52, 53])
        (some [48]) (some [49]) (some [49]) (some [57, 55, 56])
        (some CONCERT_PRIVATE_EMPTY) (some CONCERT_DELAY_NOW)
        (some CONCERT_AUTHORIZATION_AUTO)
      = (CONCERT_ERROR_INVALID_AUTHORIZATION, [1, 2, 3]) :=
  ⟨by decide, by decide, by decide, by decide, by decide, by decide, by decide, by decide,
    (concert_message_never_succeeds [1, 2, 3] 3 (some [48, 49])
      (some [48, 48, 48, 49, 50, 51, 52, 53]) (some [48]) (some [49]) (some [49])
      (some [57, 55, 56]) (some CONCERT_PRIVATE_EMPTY) (some CONCERT_DELAY_NOW)
      (some CONCERT_AUTHORIZATION_AUTO) device_ok 8192 [] sample_path 12599
      (some CONCERT_CURRENCY_EUR)).2.2.1
      (by decide) (by decide) (by decide) (by decide) (by decide) (by decide)
      (by decide) (by decide)⟩

/-! ## Amount field -/

/-- C8, restricted to what the 8-byte field can hold: for every amount below
100000000 the amount field built by `concert_simple_request` is exactly 8
ASCII digits, namely the decimal digits of the amount left-padded with `'0'`,
and its decimal value is the amount. -/
theorem amount_field_below_limit (amount : Nat) (h : amount < 100000000) :
    (cstr (amount_str amount)).length = 8
    ∧ all_digits (cstr (amount_str amount)) = true
    ∧ cstr (amount_str amount)
        = List.replicate (8 - (utoa amount).length) 48 ++ utoa amount
    ∧ decimal_value (cstr (amount_str amount)) = amount := by
  have hv := valid_amount_amount_str amount
  simp only [valid_amount, field_valid, Bool.and_eq_true, decide_eq_true_eq] at hv
  have hmod : amount % 4294967296 = amount := Nat.mod_eq_of_lt (by omega)
  have hlen : (utoa amount).length ≤ 8 :=
    utoa_loop_length 10 8 amount (by decide) (by decide) (by omega)
  have hfull : (format_08u amount).length = 8 := by
    simp only [format_08u, List.length_append, List.length_replicate]; omega
  have hfield : cstr (amount_str amount)
      = List.replicate (8 - (utoa amount).length) 48 ++ utoa amount := by
    rw [cstr_amount_str, hmod, List.take_of_length_le (by omega), format_08u]
  refine ⟨hv.1, hv.2, hfield, ?_⟩
  rw [hfield, decimal_value_pad]
  exact decimal_value_utoa_loop 10 amount (by omega)

theorem amount_field_below_limit_witness :
    12599 < 100000000
    ∧ cstr (amount_str 12599) = [48, 48, 48, 49, 50, 53, 57, 57]
    ∧ decimal_value (cstr (amount_str 12599)) = 12599 :=
  ⟨by decide, by decide, (amount_field_below_limit 12599 (by decide)).2.2.2⟩

/-- C8 as stated fails at the amount 100000000, which an `unsigned int`
holds: the field is `"10000000"`, whose value is 10000000. -/
theorem amount_field_counterexample :
    100000000 < 4294967296
    ∧ cstr (amount_str 100000000) = [49, 48, 48, 48, 48, 48, 48, 48]
    ∧ decimal_value (cstr (amount_str 100000000)) = 10000000
    ∧ decimal_value (cstr (amount_str 100000000)) ≠ 100000000 := by
  decide

/-! ## Serial transport, handshake and orchestrator -/

/-- C3: evaluation of `concert_simple_request` on a device where every call
succeeds, for the amount 12599 and the currency `"978"`: it returns
`CONCERT_ERROR_INVALID_AUTHORIZATION` and makes no system call at all. -/
theorem concert_simple_request_sample :
    concert_simple_request device_ok 8192 (List.replicate 8192 0) (some sample_path)
        12599 (some CONCERT_CURRENCY_EUR)
      = (CONCERT_ERROR_INVALID_AUTHORIZATION, []) := by
  decide

/-- C4: evaluation of the part of `concert_simple_request` that follows the
encoding, given a message size of 37.  When the write fails after a successful
open no `close` is issued; when the write succeeds the `close` goes to
descriptor 1, not to descriptor 3 which `open` produced. -/
theorem concert_simple_request_send_leaks :
    concert_simple_request_send device_write_fails sample_path 37 sample_frame
      = (CONCERT_ERROR, [ev_open sample_path, ev_tcgetattr 3, ev_tcsetattr 3,
          ev_write 1 sample_frame])
    ∧ concert_simple_request_send device_ok sample_path 37 sample_frame
      = (1, [ev_open sample_path, ev_tcgetattr 3, ev_tcsetattr 3,
          ev_write 1 sample_frame, ev_close 1]) := by
  decide

/-- The value `concert_device_open` returns is 1 or `CONCERT_ERROR`, whatever
descriptor `open` produced. -/
theorem concert_device_open_result (os : OS) (device : List Nat) :
    (concert_device_open os device).1 = 1
    ∨ (concert_device_open os device).1 = CONCERT_ERROR := by
  unfold concert_device_open
  simp only []
  split_ifs <;> simp

/-- C5: evaluation of `concert_device_open` on a device where `open` yields
descriptor 3 and both attribute calls succeed: the result is 1, not 3. -/
theorem concert_device_open_returns_one :
    device_ok.sys_open sample_path = 3
    ∧ concert_device_open device_ok sample_path
      = (1, [ev_open sample_path, ev_tcgetattr 3, ev_tcsetattr 3]) := by
  decide

theorem ping_payload_take (BUFSIZ : Nat) :
    ((List.replicate BUFSIZ 0).set 0 5).take BUFSIZ = (List.replicate BUFSIZ 0).set 0 5 :=
  List.take_of_length_le (by simp)

theorem store_first_byte (buffer data : List Nat) (h : 0 < buffer.length) :
    (store buffer data).getD 0 0 = (data.head?).getD (buffer.getD 0 0) := by
  cases data with
  | nil => simp [store]
  | cons d rest =>
    cases buffer with
    | nil => simp at h
    | cons b bs => simp [store]

theorem head_take (data : List Nat) (n : Nat) (h : 0 < n) :
    (data.take n).head? = data.head? := by
  cases data with
  | nil => simp
  | cons d rest =>
    cases n with
    | zero => omega
    | succ k => simp

theorem int_of_ssize_t_of_range (x : Int) (h0 : 0 ≤ x) (h1 : x < 2147483648) :
    int_of_ssize_t x = x := by
  unfold int_of_ssize_t
  omega

theorem concert_device_ping_cases (os : OS) (BUFSIZ : Nat) (device : Int)
    (hB : 0 < BUFSIZ) (hmax : BUFSIZ < 2147483648)
    (hw : os.sys_write device ((List.replicate BUFSIZ 0).set 0 5) < 2147483648) :
    (concert_device_ping os BUFSIZ device).1
      = if os.sys_write device ((List.replicate BUFSIZ 0).set 0 5) < 0 then CONCERT_ERROR
        else match os.sys_read device BUFSIZ with
          | none => CONCERT_ERROR
          | some data => if data.head? = some 6 then 1 else CONCERT_ERROR := by
  simp only [concert_device_ping, concert_device_write, concert_device_read,
    ping_payload_take, is_null, Option.isNone_some, deref, Option.getD_some]
  by_cases hw0 : os.sys_write device ((List.replicate BUFSIZ 0).set 0 5) < 0
  · simp [hw0, CONCERT_ERROR]
  · have hw2 : ¬ (os.sys_write device ((List.replicate BUFSIZ 0).set 0 5) < 0) := hw0
    have e1 := int_of_ssize_t_of_range _ (by omega) hw
    simp only [hw0, if_false, e1, Bool.false_eq_true]
    cases hr : os.sys_read device BUFSIZ with
    | none => simp [CONCERT_ERROR]
    | some data =>
      have hle : (data.take BUFSIZ).length ≤ BUFSIZ := by
        rw [List.length_take]; exact Nat.min_le_left _ _
      have e2 := int_of_ssize_t_of_range ((data.take BUFSIZ).length : Int) (by omega)
        (by omega)
      have hlen : ¬ (((data.take BUFSIZ).length : Int) < 0) := by omega
      have hfirst := store_first_byte ((List.replicate BUFSIZ 0).set 0 5)
        (data.take BUFSIZ) (by simpa using hB)
      rw [head_take data BUFSIZ hB] at hfirst
      simp only [e2, hlen, if_false, hfirst]
      cases hd : data.head? with
      | none =>
        cases BUFSIZ with
        | zero => omega
        | succ k => simp [List.replicate_succ]
      | some d =>
        by_cases h6 : d = 6
        · simp [h6]
        · simp [h6]

/-- C6: on a device whose `write` answers a count that an `int` holds (as any
count of at most `BUFSIZ` bytes is), `concert_device_ping` returns 1 exactly
when the write succeeds, the read succeeds and the first byte delivered is
0x06; it returns the negative `CONCERT_ERROR` when the write fails, when the
read fails, and when the read succeeds with a first byte other than 0x06 or
with no byte at all. -/
theorem concert_device_ping_result (os : OS) (BUFSIZ : Nat) (device : Int)
    (hB : 0 < BUFSIZ) (hmax : BUFSIZ < 2147483648)
    (hw : os.sys_write device ((List.replicate BUFSIZ 0).set 0 5) < 2147483648) :
    ((concert_device_ping os BUFSIZ device).1 = 1 ↔
        0 ≤ os.sys_write device ((List.replicate BUFSIZ 0).set 0 5)
        ∧ ∃ data, os.sys_read device BUFSIZ = some data ∧ data.head? = some 6)
    ∧ (os.sys_write device ((List.replicate BUFSIZ 0).set 0 5) < 0 →
        (concert_device_ping os BUFSIZ device).1 = CONCERT_ERROR)
    ∧ (0 ≤ os.sys_write device ((List.replicate BUFSIZ 0).set 0 5) →
        os.sys_read device BUFSIZ = none →
        (concert_device_ping os BUFSIZ device).1 = CONCERT_ERROR)
    ∧ (0 ≤ os.sys_write device ((List.replicate BUFSIZ 0).set 0 5) →
        ∀ data, os.sys_read device BUFSIZ = some data → data.head? ≠ some 6 →
        (concert_device_ping os BUFSIZ device).1 = CONCERT_ERROR) := by
  rw [concert_device_ping_cases os BUFSIZ device hB hmax hw]
  refine ⟨?_, ?_, ?_, ?_⟩
  · by_cases hw0 : os.sys_write device ((List.replicate BUFSIZ 0).set 0 5) < 0
    · simp only [hw0, if_true]
      constructor
      · intro h; exact absurd h (by decide)
      · intro h; omega
    · simp only [hw0, if_false]
      cases hr : os.sys_read device BUFSIZ with
      | none =>
        constructor
        · intro h; exact absurd h (by decide)
        · intro h; obtain ⟨_, data, hdata, _⟩ := h; cases hdata
      | some data =>
        by_cases h6 : data.head? = some 6
        · simp only [h6, if_true, true_iff]
          exact ⟨by omega, data, rfl, h6⟩
        · simp only [h6, if_false]
          constructor
          · intro h; exact absurd h (by decide)
          · intro h
            obtain ⟨_, data2, hdata, h62⟩ := h
            cases hdata
            exact absurd h62 h6
  · intro hw0; simp [hw0]
  · intro hw0 hr
    have : ¬ os.sys_write device ((List.replicate BUFSIZ 0).set 0 5) < 0 := by omega
    simp [this, hr]
  · intro hw0 data hr h6
    have : ¬ os.sys_write device ((List.replicate BUFSIZ 0).set 0 5) < 0 := by omega
    simp [this, hr, h6]

theorem concert_device_ping_result_witness :
    0 < 16 ∧ 16 < 2147483648
    ∧ device_ok.sys_write 3 ((List.replicate 16 0).set 0 5) < 2147483648
    ∧ (concert_device_ping device_ok 16 3).1 = 1 :=
  ⟨by decide, by decide, by decide,
    (concert_device_ping_result device_ok 16 3 (by decide) (by decide) (by decide)).1.2
      ⟨by decide, [6], rfl, rfl⟩⟩

/-- A `write` that answers 2147483648 is reported by `concert_device_write` as
-2147483648, and `concert_device_ping` returns that value without reading. -/
theorem concert_device_ping_oversized_write :
    concert_device_ping device_write_oversized 16 3
      = (-2147483648, [ev_write 3 ((List.replicate 16 0).set 0 5)]) := by
  decide

/-- The calls `concert_device_ping` makes: one write of the whole buffer,
then one read unless `concert_device_write` reported a failure. -/
theorem concert_device_ping_trace (os : OS) (BUFSIZ : Nat) (device : Int) :
    (concert_device_ping os BUFSIZ device).2
      = if (concert_device_write os device ((List.replicate BUFSIZ 0).set 0 5) BUFSIZ).1 < 0
        then [ev_write device ((List.replicate BUFSIZ 0).set 0 5)]
        else
          [ev_write device ((List.replicate BUFSIZ 0).set 0 5), ev_read device BUFSIZ] := by
  simp only [concert_device_ping]
  have hw2 : (concert_device_write os device ((List.replicate BUFSIZ 0).set 0 5) BUFSIZ).2
      = [ev_write device ((List.replicate BUFSIZ 0).set 0 5)] := by
    simp only [concert_device_write, ping_payload_take]
    split_ifs <;> rfl
  have hr2 : (concert_device_read os device (some ((List.replicate BUFSIZ 0).set 0 5))
      BUFSIZ).2.2 = [ev_read device BUFSIZ] := by
    simp only [concert_device_read, is_null, Option.isNone_some, Bool.false_eq_true, if_false]
    cases os.sys_read device BUFSIZ <;> rfl
  by_cases hw : (concert_device_write os device ((List.replicate BUFSIZ 0).set 0 5)
      BUFSIZ).1 < 0
  · simp only [hw, if_true, hw2]
  · simp only [hw, if_false, hw2, hr2]
    split_ifs <;> rfl

/-- C7: evaluation of `concert_device_ping` with `BUFSIZ` 8192 on a device
where every call succeeds: one write then one read, and the payload of the
write is the whole buffer, 8192 bytes, of which only the first is 0x05. -/
theorem concert_device_ping_writes_whole_buffer :
    (concert_device_ping device_ok 8192 3).2
      = [ev_write 3 ((List.replicate 8192 0).set 0 5), ev_read 3 8192]
    ∧ ((List.replicate 8192 0).set 0 5).length = 8192
    ∧ (List.replicate 8192 0).set 0 5 ≠ [5] := by
  have hlen : ((List.replicate 8192 0).set 0 5).length = 8192 := by
    rw [List.length_set, List.length_replicate]
  refine ⟨?_, hlen, ?_⟩
  · rw [concert_device_ping_trace]
    have hw : ¬ ((concert_device_write device_ok 3 ((List.replicate 8192 0).set 0 5)
        8192).1 < 0) := by
      simp only [concert_device_write, ping_payload_take, device_ok, hlen]
      decide
    rw [if_neg hw]
  · intro h
    have h2 := congrArg List.length h
    rw [hlen] at h2
    exact absurd h2 (by decide)

end Concert
